import Mathlib

/-!
Shallow embedding of the Win2D printing object model
(CanvasPrintDocument / CanvasPrintEventArgs / CanvasPreviewEventArgs /
CanvasPrintTaskOptionsChangedEventArgs) together with proofs of the
behavioural properties stated in the specification.

The repository sources available here are the unit tests
(`src/unnamed/part_000`) and the header `CanvasPrintEventArgs.h`; the
implementation files of the controller and the event-args classes are not
present.  The definitions below are therefore modelled from the spec
(section 4 of spec.md), with the tests pinning down the concrete error
codes (`E_INVALIDARG`, `E_FAIL`, `RPC_E_WRONG_THREAD`) and the call
sequences expected of the collaborators.  Floating point quantities (DPI,
page sizes) are modelled with exact rationals: all the code under study
does with them is compare against zero, multiply and divide, which the
spec states as exact equations.
-/

/-- COM result codes observed by the unit tests of the printing module. -/
inductive HRESULT where
  | S_OK
  | E_INVALIDARG
  | E_FAIL
  | RPC_E_WRONG_THREAD
  deriving DecidableEq, Repr

open HRESULT

/-- Modelled from the spec: the result of `IPrintTaskOptionsCore::GetPageDescription`,
a page's physical size, imageable rectangle and DPI (section 6). -/
structure PrintPageDescription where
  width : ℚ
  height : ℚ
  dpiX : ℚ
  dpiY : ℚ
  deriving DecidableEq

/-- Modelled from the spec: the print-task options collaborator, reduced to its
`GetPageDescription(pageNumber)` query (section 6). -/
structure PrintTaskOptions where
  getPageDescription : Nat → PrintPageDescription

/-- Modelled from the spec: one call made on the platform print-control object
(`AddPage(commandList, pageSize, ticketStream, tag1, tag2)` or `Close()`).
`page` records the sequential page index whose description supplied the size;
the stream and tag arguments are `none` when the null pointer was passed. -/
inductive PrintControlCall where
  | addPage (page : Nat) (pageWidth pageHeight : ℚ)
      (ticketStream tag1 tag2 : Option Unit)
  | close
  deriving DecidableEq

/-- Modelled from the spec: the state of a `CanvasPrintEventArgs` instance
(`CanvasPrintEventArgs.h` lists the fields: task options, DPI, the lazily
created print control, the currently open command list and the current page
index).  `printControlCalls` is the trace of calls made on the print control. -/
structure CanvasPrintEventArgs where
  printTaskOptions : PrintTaskOptions
  dpi : ℚ
  anyDrawingSessionCreated : Bool
  printControlCreated : Bool
  printControlDpi : ℚ
  sessionOpen : Bool
  currentPage : Nat
  printControlCalls : List PrintControlCall

namespace CanvasPrintEventArgs

/-- Modelled from the spec: a fresh `CanvasPrintEventArgs` bound to task options
and an initial DPI; no drawing session yet, no print control yet, the first
drawing session will be page 1. -/
def init (opts : PrintTaskOptions) (initialDpi : ℚ) : CanvasPrintEventArgs :=
  { printTaskOptions := opts
    dpi := initialDpi
    anyDrawingSessionCreated := false
    printControlCreated := false
    printControlDpi := 0
    sessionOpen := false
    currentPage := 1
    printControlCalls := [] }

/-- Modelled from the spec: `get_PrintTaskOptions`; fails with `E_INVALIDARG`
on a null output pointer (modelled by the `outIsNull` flag), otherwise
returns the stored options. -/
def get_PrintTaskOptions (a : CanvasPrintEventArgs) (outIsNull : Bool) :
    HRESULT × CanvasPrintEventArgs × Option PrintTaskOptions :=
  if outIsNull then (E_INVALIDARG, a, none) else (S_OK, a, some a.printTaskOptions)

/-- Modelled from the spec: `get_Dpi`; fails with `E_INVALIDARG` on a null
output pointer, otherwise returns the current DPI. -/
def get_Dpi (a : CanvasPrintEventArgs) (outIsNull : Bool) :
    HRESULT × CanvasPrintEventArgs × Option ℚ :=
  if outIsNull then (E_INVALIDARG, a, none) else (S_OK, a, some a.dpi)

/-- Modelled from the spec: `GetDeferral`; fails with `E_INVALIDARG` on a null
output pointer, otherwise hands out an (opaque) deferral handle. -/
def GetDeferral (a : CanvasPrintEventArgs) (outIsNull : Bool) :
    HRESULT × CanvasPrintEventArgs × Option Unit :=
  if outIsNull then (E_INVALIDARG, a, none) else (S_OK, a, some ())

/-- Modelled from the spec: `put_Dpi` fails unconditionally with `E_FAIL` once
any drawing session has been created (DPI frozen), fails with `E_INVALIDARG`
for values not greater than zero, and otherwise stores the value. -/
def put_Dpi (a : CanvasPrintEventArgs) (value : ℚ) :
    HRESULT × CanvasPrintEventArgs :=
  if a.anyDrawingSessionCreated then (E_FAIL, a)
  else if value ≤ 0 then (E_INVALIDARG, a)
  else (S_OK, { a with dpi := value })

/-- Modelled from the spec: `CreateDrawingSessionImpl` fails with `E_FAIL`
while a previously returned session is still open; otherwise it lazily
creates the print control (at the current DPI, which becomes frozen), opens a
new command-list-backed session and returns it. -/
def CreateDrawingSessionImpl (a : CanvasPrintEventArgs) :
    HRESULT × CanvasPrintEventArgs × Option Unit :=
  if a.sessionOpen then (E_FAIL, a, none)
  else
    (S_OK,
      { a with
          anyDrawingSessionCreated := true
          printControlCreated := true
          printControlDpi := if a.printControlCreated then a.printControlDpi else a.dpi
          sessionOpen := true },
      some ())

/-- Modelled from the spec: `CreateDrawingSession` checks the output pointer
and then defers to `CreateDrawingSessionImpl`. -/
def CreateDrawingSession (a : CanvasPrintEventArgs) (outIsNull : Bool) :
    HRESULT × CanvasPrintEventArgs × Option Unit :=
  if outIsNull then (E_INVALIDARG, a, none) else CreateDrawingSessionImpl a

/-- Modelled from the spec: `DrawingSessionClosed` queries the task options for
the current page's description, passes the finished command list with that
physical size and null ticket stream / tags to the print-control's `AddPage`,
and advances to the next sequential page index. -/
def DrawingSessionClosed (a : CanvasPrintEventArgs) : CanvasPrintEventArgs :=
  let d := a.printTaskOptions.getPageDescription a.currentPage
  { a with
      sessionOpen := false
      currentPage := a.currentPage + 1
      printControlCalls :=
        a.printControlCalls ++ [.addPage a.currentPage d.width d.height none none none] }

/-- Modelled from the spec: `EndPrinting` runs after the `Print` handler
returns; it closes the print control exactly once (creating it first if no
page was ever drawn). -/
def EndPrinting (a : CanvasPrintEventArgs) : CanvasPrintEventArgs :=
  { a with
      printControlCreated := true
      printControlDpi := if a.printControlCreated then a.printControlDpi else a.dpi
      printControlCalls := a.printControlCalls ++ [.close] }

/-- Create one drawing session and close it again: one printed page. -/
def drawOnePage (a : CanvasPrintEventArgs) : CanvasPrintEventArgs :=
  DrawingSessionClosed (CreateDrawingSessionImpl a).2.1

/-- Create and close `n` drawing sessions in sequence, as a `Print` handler
drawing `n` pages would. -/
def drawPages : Nat → CanvasPrintEventArgs → CanvasPrintEventArgs
  | 0, a => a
  | n + 1, a => drawPages n (drawOnePage a)

end CanvasPrintEventArgs

/-- Modelled from the spec: the state of a `CanvasPrintTaskOptionsChangedEventArgs`
instance: the (immutable) current preview page number, the mutable new preview
page number defaulting to 1, and the task options (section 3). -/
structure CanvasPrintTaskOptionsChangedEventArgs where
  currentPreviewPageNumber : Nat
  newPreviewPageNumber : Nat
  printTaskOptions : PrintTaskOptions

namespace CanvasPrintTaskOptionsChangedEventArgs

/-- Modelled from the spec: a fresh args instance for a pagination round;
the new preview page number defaults to 1. -/
def init (currentPage : Nat) (opts : PrintTaskOptions) :
    CanvasPrintTaskOptionsChangedEventArgs :=
  { currentPreviewPageNumber := currentPage
    newPreviewPageNumber := 1
    printTaskOptions := opts }

/-- Modelled from the spec: `get_CurrentPreviewPageNumber`; `E_INVALIDARG` on a
null output pointer. -/
def get_CurrentPreviewPageNumber (a : CanvasPrintTaskOptionsChangedEventArgs)
    (outIsNull : Bool) :
    HRESULT × CanvasPrintTaskOptionsChangedEventArgs × Option Nat :=
  if outIsNull then (E_INVALIDARG, a, none)
  else (S_OK, a, some a.currentPreviewPageNumber)

/-- Modelled from the spec: `get_NewPreviewPageNumber`; `E_INVALIDARG` on a
null output pointer. -/
def get_NewPreviewPageNumber (a : CanvasPrintTaskOptionsChangedEventArgs)
    (outIsNull : Bool) :
    HRESULT × CanvasPrintTaskOptionsChangedEventArgs × Option Nat :=
  if outIsNull then (E_INVALIDARG, a, none)
  else (S_OK, a, some a.newPreviewPageNumber)

/-- Modelled from the spec: `put_NewPreviewPageNumber` validates that the new
value is at least 1 and stores it. -/
def put_NewPreviewPageNumber (a : CanvasPrintTaskOptionsChangedEventArgs)
    (value : Nat) : HRESULT × CanvasPrintTaskOptionsChangedEventArgs :=
  if value < 1 then (E_INVALIDARG, a)
  else (S_OK, { a with newPreviewPageNumber := value })

/-- Modelled from the spec: `GetDeferral`; `E_INVALIDARG` on a null output
pointer. -/
def GetDeferral (a : CanvasPrintTaskOptionsChangedEventArgs) (outIsNull : Bool) :
    HRESULT × CanvasPrintTaskOptionsChangedEventArgs × Option Unit :=
  if outIsNull then (E_INVALIDARG, a, none) else (S_OK, a, some ())

/-- Modelled from the spec: `get_PrintTaskOptions`; `E_INVALIDARG` on a null
output pointer. -/
def get_PrintTaskOptions (a : CanvasPrintTaskOptionsChangedEventArgs)
    (outIsNull : Bool) :
    HRESULT × CanvasPrintTaskOptionsChangedEventArgs × Option PrintTaskOptions :=
  if outIsNull then (E_INVALIDARG, a, none) else (S_OK, a, some a.printTaskOptions)

end CanvasPrintTaskOptionsChangedEventArgs

/-- Modelled from the spec: the state of a `CanvasPreviewEventArgs` instance:
page number, task options and the drawing session bound to the page-sized
render target (identified here by the render target's creation index). -/
structure CanvasPreviewEventArgs where
  pageNumber : Nat
  printTaskOptions : PrintTaskOptions
  drawingSession : Nat

namespace CanvasPreviewEventArgs

/-- Modelled from the spec: `get_PageNumber`; `E_INVALIDARG` on a null output
pointer. -/
def get_PageNumber (a : CanvasPreviewEventArgs) (outIsNull : Bool) :
    HRESULT × CanvasPreviewEventArgs × Option Nat :=
  if outIsNull then (E_INVALIDARG, a, none) else (S_OK, a, some a.pageNumber)

/-- Modelled from the spec: `get_PrintTaskOptions`; `E_INVALIDARG` on a null
output pointer. -/
def get_PrintTaskOptions (a : CanvasPreviewEventArgs) (outIsNull : Bool) :
    HRESULT × CanvasPreviewEventArgs × Option PrintTaskOptions :=
  if outIsNull then (E_INVALIDARG, a, none) else (S_OK, a, some a.printTaskOptions)

/-- Modelled from the spec: `GetDeferral`; `E_INVALIDARG` on a null output
pointer. -/
def GetDeferral (a : CanvasPreviewEventArgs) (outIsNull : Bool) :
    HRESULT × CanvasPreviewEventArgs × Option Unit :=
  if outIsNull then (E_INVALIDARG, a, none) else (S_OK, a, some ())

/-- Modelled from the spec: `get_DrawingSession`; `E_INVALIDARG` on a null
output pointer. -/
def get_DrawingSession (a : CanvasPreviewEventArgs) (outIsNull : Bool) :
    HRESULT × CanvasPreviewEventArgs × Option Nat :=
  if outIsNull then (E_INVALIDARG, a, none) else (S_OK, a, some a.drawingSession)

end CanvasPreviewEventArgs

/-- Sentinel page number `JOB_PAGE_APPLICATION_DEFINED` used by the print
system to mean that no page is currently displayed. -/
def JOB_PAGE_APPLICATION_DEFINED : Nat := 4294967295

/-- Modelled from the spec: the page-count type passed through to
`SetJobPageCount` (section 6). -/
inductive PageCountType where
  | finalCount
  | intermediateCount
  deriving DecidableEq

/-- Modelled from the spec: one call made on the platform preview target
(`DrawPage(pageNumber, surface, dpiX, dpiY)`, `InvalidatePreview()` or
`SetJobPageCount(kind, count)`, section 6).  Surfaces are identified by the
creation index of the render-target bitmap they belong to. -/
inductive PreviewTargetCall where
  | drawPage (pageNumber : Nat) (surfaceId : Nat) (dpiX dpiY : ℚ)
  | invalidatePreview
  | setJobPageCount (kind : PageCountType) (count : Nat)

/-- Modelled from the spec: one call made on the owning device's
`CreateRenderTargetBitmap(width, height, dpi, pixelFormat, alphaMode)`;
the pixel format and alpha mode are fixed to B8G8R8A8-premultiplied, recorded
here as the `premultipliedB8G8R8A8` flag. -/
structure RenderTargetCreation where
  width : ℚ
  height : ℚ
  dpi : ℚ
  premultipliedB8G8R8A8 : Bool

/-- Modelled from the spec: a user event callback is modelled by the state
mutations it performs on its event-args.  A `PrintTaskOptionsChanged` handler
may call `put_NewPreviewPageNumber` with some value; a `Print` handler creates
and closes some number of drawing sessions. -/
structure OptionsChangedHandler where
  putNewPage : Option Nat

/-- Modelled from the spec: a unit of work enqueued on the UI-affined task
queue by `Paginate`, `MakePage` or `MakeDocument` (section 4.1). -/
inductive QueuedTask where
  | paginateTask (currentPage : Nat) (opts : PrintTaskOptions)
  | makePageTask (pageNumber : Nat) (displayWidth displayHeight : ℚ)
  | makeDocumentTask (opts : PrintTaskOptions)

/-- Modelled from the spec: an observable invocation of a registered user
event handler, with the values the delivered event-args would report. -/
inductive RaisedEvent where
  | printTaskOptionsChanged (currentPreviewPageNumber : Nat)
  | preview (pageNumber : Nat)
  | printEvent (initialDpi : ℚ)

/-- Modelled from the spec: the state of a `CanvasPrintDocument` (section 3):
whether a preview session exists, the most recently committed new preview
page number, the task options of the last pagination round, the registered
handlers (at most one effective subscriber per event kind), the UI-affined
task queue, and the traces of calls made on the collaborators. -/
structure CanvasPrintDocument where
  deviceDpi : ℚ
  previewBound : Bool
  newPreviewPageNumber : Nat
  lastOptions : Option PrintTaskOptions
  optionsChangedHandler : Option OptionsChangedHandler
  previewHandler : Option Unit
  printHandler : Option Nat
  queue : List QueuedTask
  raised : List RaisedEvent
  renderTargets : List RenderTargetCreation
  previewTargetCalls : List PreviewTargetCall
  printControlCalls : List PrintControlCall

namespace CanvasPrintDocument

/-- Modelled from the spec: the initial state of a freshly activated document:
no preview session, committed new preview page number 1, nothing registered,
empty queue and empty traces. -/
def init (deviceDpi : ℚ) : CanvasPrintDocument :=
  { deviceDpi := deviceDpi
    previewBound := false
    newPreviewPageNumber := 1
    lastOptions := none
    optionsChangedHandler := none
    previewHandler := none
    printHandler := none
    queue := []
    raised := []
    renderTargets := []
    previewTargetCalls := []
    printControlCalls := [] }

/-- Modelled from the spec: activation fails outright with
`RPC_E_WRONG_THREAD`, producing no document, when no UI-affined dispatcher
can be obtained for the calling context (section 4.1). -/
def ActivateInstance (deviceDpi : ℚ) (hasDispatcher : Bool) :
    HRESULT × Option CanvasPrintDocument :=
  if hasDispatcher then (S_OK, some (init deviceDpi))
  else (RPC_E_WRONG_THREAD, none)

/-- Modelled from the spec: `GetPreviewPageCollection` fails with
`E_INVALIDARG` if the target or the output slot is null, and otherwise binds
the preview session state to the target. -/
def GetPreviewPageCollection (s : CanvasPrintDocument)
    (targetIsNull outIsNull : Bool) : HRESULT × CanvasPrintDocument :=
  if targetIsNull then (E_INVALIDARG, s)
  else if outIsNull then (E_INVALIDARG, s)
  else (S_OK, { s with previewBound := true })

/-- Modelled from the spec: `SetPageCount` and `SetIntermediatePageCount` share
one implementation parameterized by the page-count type; they fail with
`E_FAIL` before a preview session exists and otherwise forward to the preview
target's `SetJobPageCount` (sections 4.1 and 9). -/
def SetPageCountImpl (s : CanvasPrintDocument) (kind : PageCountType)
    (count : Nat) : HRESULT × CanvasPrintDocument :=
  if s.previewBound then
    (S_OK, { s with previewTargetCalls :=
      s.previewTargetCalls ++ [.setJobPageCount kind count] })
  else (E_FAIL, s)

/-- Modelled from the spec: `SetPageCount(count)` forwards to
`SetJobPageCount(Final, count)`. -/
def SetPageCount (s : CanvasPrintDocument) (count : Nat) :
    HRESULT × CanvasPrintDocument :=
  SetPageCountImpl s .finalCount count

/-- Modelled from the spec: `SetIntermediatePageCount(count)` forwards to
`SetJobPageCount(Intermediate, count)`. -/
def SetIntermediatePageCount (s : CanvasPrintDocument) (count : Nat) :
    HRESULT × CanvasPrintDocument :=
  SetPageCountImpl s .intermediateCount count

/-- Modelled from the spec: `InvalidatePreview` is a no-op before a preview
session exists and otherwise forwards synchronously to the preview target. -/
def InvalidatePreview (s : CanvasPrintDocument) :
    HRESULT × CanvasPrintDocument :=
  if s.previewBound then
    (S_OK, { s with previewTargetCalls :=
      s.previewTargetCalls ++ [.invalidatePreview] })
  else (S_OK, s)

/-- Modelled from the spec: `Paginate` normalizes the sentinel page number to
1 and only enqueues a unit of work on the UI-affined task queue; it invokes
no user code synchronously (section 4.1). -/
def Paginate (s : CanvasPrintDocument) (currentPage : Nat)
    (opts : PrintTaskOptions) : CanvasPrintDocument :=
  let p := if currentPage = JOB_PAGE_APPLICATION_DEFINED then 1 else currentPage
  { s with queue := s.queue ++ [.paginateTask p opts] }

/-- Modelled from the spec: `MakePage` only enqueues a unit of work carrying
the requested page number and display size (section 4.1); the sentinel page
number is resolved when the task runs. -/
def MakePage (s : CanvasPrintDocument) (pageNumber : Nat)
    (displayWidth displayHeight : ℚ) : CanvasPrintDocument :=
  { s with queue := s.queue ++ [.makePageTask pageNumber displayWidth displayHeight] }

/-- Modelled from the spec: `MakeDocument` only enqueues a unit of work
carrying the task options (section 4.1). -/
def MakeDocument (s : CanvasPrintDocument) (opts : PrintTaskOptions) :
    CanvasPrintDocument :=
  { s with queue := s.queue ++ [.makeDocumentTask opts] }

end CanvasPrintDocument

namespace CanvasPrintDocument

/-- Modelled from the spec: `add_PrintTaskOptionsChanged` registers the (single
effective) pagination handler. -/
def add_PrintTaskOptionsChanged (s : CanvasPrintDocument)
    (h : OptionsChangedHandler) : CanvasPrintDocument :=
  { s with optionsChangedHandler := some h }

/-- Modelled from the spec: `remove_PrintTaskOptionsChanged` removes the
registration; an already-queued task will no longer invoke the handler. -/
def remove_PrintTaskOptionsChanged (s : CanvasPrintDocument) :
    CanvasPrintDocument :=
  { s with optionsChangedHandler := none }

/-- Modelled from the spec: `add_Preview` registers the preview handler. -/
def add_Preview (s : CanvasPrintDocument) : CanvasPrintDocument :=
  { s with previewHandler := some () }

/-- Modelled from the spec: `remove_Preview` removes the registration. -/
def remove_Preview (s : CanvasPrintDocument) : CanvasPrintDocument :=
  { s with previewHandler := none }

/-- Modelled from the spec: `add_Print` registers the print handler; the
handler is modelled by the number of pages it draws (drawing sessions it
creates and closes). -/
def add_Print (s : CanvasPrintDocument) (pagesDrawn : Nat) :
    CanvasPrintDocument :=
  { s with printHandler := some pagesDrawn }

/-- Modelled from the spec: `remove_Print` removes the registration. -/
def remove_Print (s : CanvasPrintDocument) : CanvasPrintDocument :=
  { s with printHandler := none }

/-- Modelled from the spec: the enqueued pagination task constructs the
event-args with the (already normalized) current page number and default new
page number 1, raises `PrintTaskOptionsChanged` if a handler is registered
(the handler may call `put_NewPreviewPageNumber`), and then commits the
args' new preview page number and the round's task options (section 4.1). -/
def runPaginateTask (s : CanvasPrintDocument) (p : Nat)
    (opts : PrintTaskOptions) : CanvasPrintDocument :=
  let args0 := CanvasPrintTaskOptionsChangedEventArgs.init p opts
  match s.optionsChangedHandler with
  | none =>
      { s with
          newPreviewPageNumber := args0.newPreviewPageNumber
          lastOptions := some opts }
  | some h =>
      let args1 := match h.putNewPage with
        | none => args0
        | some v => (args0.put_NewPreviewPageNumber v).2
      { s with
          raised := s.raised ++ [.printTaskOptionsChanged p]
          newPreviewPageNumber := args1.newPreviewPageNumber
          lastOptions := some opts }

/-- Modelled from the spec: the enqueued make-page task resolves the sentinel
page number from the most recently committed new preview page number, queries
the page description from the last pagination round's task options, computes
the effective DPI `deviceDpi * (displayWidth / pageWidth)`, creates a render
target bitmap at the page's physical size and that DPI, raises `Preview` if a
handler is registered, and finally submits the bitmap's surface to the
preview target via `DrawPage` with the same DPI on both axes (section 4.1).
If no pagination round has run yet there are no task options to query and
the task does nothing (the print system always calls `Paginate` first). -/
def runMakePageTask (s : CanvasPrintDocument) (rawPage : Nat)
    (displayWidth displayHeight : ℚ) : CanvasPrintDocument :=
  match s.lastOptions with
  | none => s
  | some opts =>
      let p := if rawPage = JOB_PAGE_APPLICATION_DEFINED
               then s.newPreviewPageNumber else rawPage
      let d := opts.getPageDescription p
      let dpi := s.deviceDpi * (displayWidth / d.width)
      let surfaceId := s.renderTargets.length
      let rt : RenderTargetCreation :=
        { width := d.width, height := d.height, dpi := dpi
          premultipliedB8G8R8A8 := true }
      let s1 : CanvasPrintDocument :=
        { s with renderTargets := s.renderTargets ++ [rt] }
      let s2 : CanvasPrintDocument := match s1.previewHandler with
        | none => s1
        | some _ => { s1 with raised := s1.raised ++ [.preview p] }
      { s2 with previewTargetCalls :=
        s2.previewTargetCalls ++ [.drawPage p surfaceId dpi dpi] }

/-- Modelled from the spec: the enqueued make-document task queries page 1's
description for the initial DPI, constructs a `CanvasPrintEventArgs`, raises
`Print` if a handler is registered (the handler creates and closes its pages'
drawing sessions), and on completion ends printing, which closes the print
control exactly once regardless of how many pages were drawn (section 4.1). -/
def runMakeDocumentTask (s : CanvasPrintDocument) (opts : PrintTaskOptions) :
    CanvasPrintDocument :=
  let initialDpi := (opts.getPageDescription 1).dpiX
  let args0 := CanvasPrintEventArgs.init opts initialDpi
  match s.printHandler with
  | none =>
      { s with printControlCalls :=
        s.printControlCalls ++ args0.EndPrinting.printControlCalls }
  | some n =>
      let args1 := CanvasPrintEventArgs.drawPages n args0
      { s with
          raised := s.raised ++ [.printEvent initialDpi]
          printControlCalls :=
            s.printControlCalls ++ args1.EndPrinting.printControlCalls }

/-- Run one enqueued unit of work against the document state. -/
def runTask (s : CanvasPrintDocument) : QueuedTask → CanvasPrintDocument
  | .paginateTask p opts => runPaginateTask s p opts
  | .makePageTask p dw dh => runMakePageTask s p dw dh
  | .makeDocumentTask opts => runMakeDocumentTask s opts

/-- Modelled from the spec: driving the UI-affined task queue one step: pop
the oldest enqueued unit of work (FIFO) and run it; a no-op on an empty
queue.  This is the `StubDispatcher::Tick` of the tests. -/
def RunNextAction (s : CanvasPrintDocument) : CanvasPrintDocument :=
  match s.queue with
  | [] => s
  | t :: rest => runTask { s with queue := rest } t

end CanvasPrintDocument

/-- Concrete print-task options used by the witnesses: page `p` has physical
size 100p x 200p at 120 DPI, mirroring the values used in the unit tests. -/
def anyOptions : PrintTaskOptions :=
  { getPageDescription := fun p =>
      { width := 100 * (p : ℚ), height := 200 * (p : ℚ), dpiX := 120, dpiY := 120 } }

/-- Concrete `CanvasPrintEventArgs` fixture: fresh args over `anyOptions` at
120 DPI. -/
def anyPrintEventArgs : CanvasPrintEventArgs :=
  CanvasPrintEventArgs.init anyOptions 120

/-- Concrete `CanvasPrintEventArgs` fixture whose first drawing session has
been created (and is still open). -/
def openSessionArgs : CanvasPrintEventArgs :=
  (CanvasPrintEventArgs.CreateDrawingSessionImpl anyPrintEventArgs).2.1

/-- Concrete document fixture: freshly activated document at device DPI 120,
no preview session yet. -/
def freshDoc : CanvasPrintDocument :=
  CanvasPrintDocument.init 120

/-- Concrete document fixture: preview session bound. -/
def previewDoc : CanvasPrintDocument :=
  (CanvasPrintDocument.GetPreviewPageCollection freshDoc false false).2

/-- Concrete document fixture: preview bound, pagination and preview handlers
registered; the pagination handler sets the new preview page number to 5. -/
def registeredDoc : CanvasPrintDocument :=
  CanvasPrintDocument.add_PrintTaskOptionsChanged
    (CanvasPrintDocument.add_Preview previewDoc) { putNewPage := some 5 }

/-- Concrete document fixture: `registeredDoc` after one full pagination round
over `anyOptions` with current page 3. -/
def paginatedDoc : CanvasPrintDocument :=
  CanvasPrintDocument.RunNextAction
    (CanvasPrintDocument.Paginate registeredDoc 3 anyOptions)

/-- Concrete document fixture: preview bound and a print handler registered
that draws 2 pages. -/
def printReadyDoc : CanvasPrintDocument :=
  CanvasPrintDocument.add_Print previewDoc 2

/-- Concrete event-args fixture for the pagination event. -/
def anyOptionsChangedArgs : CanvasPrintTaskOptionsChangedEventArgs :=
  CanvasPrintTaskOptionsChangedEventArgs.init 3 anyOptions

/-- Concrete event-args fixture for the preview event. -/
def anyPreviewArgs : CanvasPreviewEventArgs :=
  { pageNumber := 3, printTaskOptions := anyOptions, drawingSession := 0 }

/-- C8: activation of a print document when no UI-affined dispatcher can be
obtained fails with the wrong-execution-context error `RPC_E_WRONG_THREAD`
and produces no document object; with a dispatcher available it succeeds. -/
theorem activation_requires_dispatcher (deviceDpi : ℚ) :
    CanvasPrintDocument.ActivateInstance deviceDpi false =
      (RPC_E_WRONG_THREAD, none) ∧
    (CanvasPrintDocument.ActivateInstance deviceDpi true).1 = S_OK := by
  exact ⟨rfl, rfl⟩

/-- C5: on a `CanvasPrintEventArgs` with no open drawing session,
`CreateDrawingSession` succeeds and returns a session; while that session is
still open a second `CreateDrawingSession` fails with `E_FAIL` and returns no
session; once the open session is closed, `CreateDrawingSession` succeeds
again. -/
theorem createDrawingSession_one_at_a_time (a : CanvasPrintEventArgs)
    (h : a.sessionOpen = false) :
    (CanvasPrintEventArgs.CreateDrawingSession a false).1 = S_OK ∧
    ((CanvasPrintEventArgs.CreateDrawingSession a false).2.2).isSome = true ∧
    (CanvasPrintEventArgs.CreateDrawingSession
      (CanvasPrintEventArgs.CreateDrawingSession a false).2.1 false).1 = E_FAIL ∧
    (CanvasPrintEventArgs.CreateDrawingSession
      (CanvasPrintEventArgs.CreateDrawingSession a false).2.1 false).2.2 = none ∧
    (CanvasPrintEventArgs.CreateDrawingSession
      (CanvasPrintEventArgs.DrawingSessionClosed
        (CanvasPrintEventArgs.CreateDrawingSession a false).2.1) false).1 = S_OK := by
  simp [CanvasPrintEventArgs.CreateDrawingSession,
        CanvasPrintEventArgs.CreateDrawingSessionImpl,
        CanvasPrintEventArgs.DrawingSessionClosed, h]

/-- Witness for C5 at the concrete fixture `anyPrintEventArgs`. -/
theorem createDrawingSession_one_at_a_time_witness :
    (CanvasPrintEventArgs.CreateDrawingSession anyPrintEventArgs false).1 = S_OK ∧
    ((CanvasPrintEventArgs.CreateDrawingSession anyPrintEventArgs false).2.2).isSome = true ∧
    (CanvasPrintEventArgs.CreateDrawingSession
      (CanvasPrintEventArgs.CreateDrawingSession anyPrintEventArgs false).2.1 false).1 = E_FAIL ∧
    (CanvasPrintEventArgs.CreateDrawingSession
      (CanvasPrintEventArgs.CreateDrawingSession anyPrintEventArgs false).2.1 false).2.2 = none ∧
    (CanvasPrintEventArgs.CreateDrawingSession
      (CanvasPrintEventArgs.DrawingSessionClosed
        (CanvasPrintEventArgs.CreateDrawingSession anyPrintEventArgs false).2.1) false).1 = S_OK :=
  createDrawingSession_one_at_a_time anyPrintEventArgs rfl

/-- C6: before any drawing session has been created, `put_Dpi` succeeds for
every value greater than zero and fails with `E_INVALIDARG` for zero and
every negative value; after the first drawing session has been created it
fails unconditionally with `E_FAIL` for every value. -/
theorem put_Dpi_validation (a : CanvasPrintEventArgs) (v : ℚ) :
    (a.anyDrawingSessionCreated = false → 0 < v →
      CanvasPrintEventArgs.put_Dpi a v = (S_OK, { a with dpi := v })) ∧
    (a.anyDrawingSessionCreated = false → v ≤ 0 →
      CanvasPrintEventArgs.put_Dpi a v = (E_INVALIDARG, a)) ∧
    (a.anyDrawingSessionCreated = true →
      (CanvasPrintEventArgs.put_Dpi a v).1 = E_FAIL) := by
  refine ⟨fun hfree hv => ?_, fun hfree hv => ?_, fun hfrozen => ?_⟩
  · simp [CanvasPrintEventArgs.put_Dpi, hfree, not_le.mpr hv]
  · simp [CanvasPrintEventArgs.put_Dpi, hfree, hv]
  · simp [CanvasPrintEventArgs.put_Dpi, hfrozen]

/-- Witness for C6: fresh args accept DPI 96 and reject 0; args whose first
drawing session exists reject every value. -/
theorem put_Dpi_validation_witness :
    CanvasPrintEventArgs.put_Dpi anyPrintEventArgs 96 =
      (S_OK, { anyPrintEventArgs with dpi := 96 }) ∧
    CanvasPrintEventArgs.put_Dpi anyPrintEventArgs 0 =
      (E_INVALIDARG, anyPrintEventArgs) ∧
    (CanvasPrintEventArgs.put_Dpi openSessionArgs 96).1 = E_FAIL :=
  ⟨(put_Dpi_validation anyPrintEventArgs 96).1 rfl (by norm_num),
   (put_Dpi_validation anyPrintEventArgs 0).2.1 rfl le_rfl,
   (put_Dpi_validation openSessionArgs 96).2.2 rfl⟩

/-- C7: `SetPageCount` and `SetIntermediatePageCount` fail synchronously with
`E_FAIL` before any preview session exists; once a preview session exists,
`SetPageCount n` forwards exactly one `SetJobPageCount(Final, n)` call and
`SetIntermediatePageCount n` exactly one `SetJobPageCount(Intermediate, n)`
call to the preview target. -/
theorem setPageCount_lifecycle (s : CanvasPrintDocument) (n : Nat) :
    (s.previewBound = false →
      CanvasPrintDocument.SetPageCount s n = (E_FAIL, s) ∧
      CanvasPrintDocument.SetIntermediatePageCount s n = (E_FAIL, s)) ∧
    (s.previewBound = true →
      (CanvasPrintDocument.SetPageCount s n).1 = S_OK ∧
      (CanvasPrintDocument.SetPageCount s n).2.previewTargetCalls =
        s.previewTargetCalls ++ [.setJobPageCount .finalCount n] ∧
      (CanvasPrintDocument.SetIntermediatePageCount s n).1 = S_OK ∧
      (CanvasPrintDocument.SetIntermediatePageCount s n).2.previewTargetCalls =
        s.previewTargetCalls ++ [.setJobPageCount .intermediateCount n]) := by
  refine ⟨fun hb => ?_, fun hb => ?_⟩ <;>
    simp [CanvasPrintDocument.SetPageCount,
          CanvasPrintDocument.SetIntermediatePageCount,
          CanvasPrintDocument.SetPageCountImpl, hb]

/-- Witness for C7 at the concrete fixtures `freshDoc` (no preview session)
and `previewDoc` (preview session bound), with count 123. -/
theorem setPageCount_lifecycle_witness :
    CanvasPrintDocument.SetPageCount freshDoc 123 = (E_FAIL, freshDoc) ∧
    (CanvasPrintDocument.SetPageCount previewDoc 123).2.previewTargetCalls =
      previewDoc.previewTargetCalls ++ [.setJobPageCount .finalCount 123] ∧
    (CanvasPrintDocument.SetIntermediatePageCount previewDoc 123).2.previewTargetCalls =
      previewDoc.previewTargetCalls ++ [.setJobPageCount .intermediateCount 123] :=
  ⟨((setPageCount_lifecycle freshDoc 123).1 rfl).1,
   ((setPageCount_lifecycle previewDoc 123).2 rfl).2.1,
   ((setPageCount_lifecycle previewDoc 123).2 rfl).2.2.2⟩

/-- C10: every accessor on the three event-args types fails with
`E_INVALIDARG` when passed a null output pointer, returning no value and
leaving the event-args state unchanged. -/
theorem eventArgs_getters_reject_null_out
    (a : CanvasPrintTaskOptionsChangedEventArgs) (b : CanvasPreviewEventArgs)
    (c : CanvasPrintEventArgs) :
    a.get_CurrentPreviewPageNumber true = (E_INVALIDARG, a, none) ∧
    a.get_NewPreviewPageNumber true = (E_INVALIDARG, a, none) ∧
    a.GetDeferral true = (E_INVALIDARG, a, none) ∧
    a.get_PrintTaskOptions true = (E_INVALIDARG, a, none) ∧
    b.get_PageNumber true = (E_INVALIDARG, b, none) ∧
    b.get_PrintTaskOptions true = (E_INVALIDARG, b, none) ∧
    b.GetDeferral true = (E_INVALIDARG, b, none) ∧
    b.get_DrawingSession true = (E_INVALIDARG, b, none) ∧
    c.get_PrintTaskOptions true = (E_INVALIDARG, c, none) ∧
    c.get_Dpi true = (E_INVALIDARG, c, none) ∧
    c.GetDeferral true = (E_INVALIDARG, c, none) ∧
    c.CreateDrawingSession true = (E_INVALIDARG, c, none) := by
  exact ⟨rfl, rfl, rfl, rfl, rfl, rfl, rfl, rfl, rfl, rfl, rfl, rfl⟩

/-- C2: `Paginate` only enqueues one unit of work on the UI-affined task queue
(changing nothing else, so no user code runs synchronously); the registered
`PrintTaskOptionsChanged` handler is invoked exactly when the queue is driven
one step after the call. -/
theorem paginate_only_enqueues (s : CanvasPrintDocument) (p : Nat)
    (opts : PrintTaskOptions) (h : OptionsChangedHandler) :
    CanvasPrintDocument.Paginate s p opts =
      { s with queue := s.queue ++
        [.paginateTask (if p = JOB_PAGE_APPLICATION_DEFINED then 1 else p) opts] } ∧
    (CanvasPrintDocument.Paginate s p opts).raised = s.raised ∧
    (s.queue = [] → s.optionsChangedHandler = some h →
      (CanvasPrintDocument.RunNextAction
        (CanvasPrintDocument.Paginate s p opts)).raised =
        s.raised ++ [.printTaskOptionsChanged
          (if p = JOB_PAGE_APPLICATION_DEFINED then 1 else p)]) := by
  refine ⟨rfl, rfl, fun hq hreg => ?_⟩
  simp [CanvasPrintDocument.Paginate, CanvasPrintDocument.RunNextAction, hq,
        CanvasPrintDocument.runTask, CanvasPrintDocument.runPaginateTask, hreg]

/-- Witness for C2 at the fixture `registeredDoc` (empty queue, pagination
handler registered), current page 3. -/
theorem paginate_only_enqueues_witness :
    (CanvasPrintDocument.RunNextAction
      (CanvasPrintDocument.Paginate registeredDoc 3 anyOptions)).raised =
      registeredDoc.raised ++ [.printTaskOptionsChanged
        (if 3 = JOB_PAGE_APPLICATION_DEFINED then 1 else 3)] :=
  (paginate_only_enqueues registeredDoc 3 anyOptions
    { putNewPage := some 5 }).2.2 rfl rfl

/-- C3: a `Paginate` call with the sentinel page number delivers a current
preview page number of exactly 1 to the `PrintTaskOptionsChanged` handler; a
pagination round whose handler sets the new preview page number to `v ≥ 1`
commits `v`; and a `MakePage` call with the sentinel page number delivers the
most recently committed new preview page number to the `Preview` handler. -/
theorem sentinel_page_resolution (s : CanvasPrintDocument)
    (opts : PrintTaskOptions) (h : OptionsChangedHandler) (v p : Nat)
    (dw dh : ℚ) :
    (s.queue = [] → s.optionsChangedHandler = some h →
      (CanvasPrintDocument.RunNextAction
        (CanvasPrintDocument.Paginate s JOB_PAGE_APPLICATION_DEFINED opts)).raised =
        s.raised ++ [.printTaskOptionsChanged 1]) ∧
    (s.queue = [] → s.optionsChangedHandler = some h → h.putNewPage = some v →
      1 ≤ v →
      (CanvasPrintDocument.RunNextAction
        (CanvasPrintDocument.Paginate s p opts)).newPreviewPageNumber = v) ∧
    (s.queue = [] → s.previewHandler = some () → s.lastOptions = some opts →
      (CanvasPrintDocument.RunNextAction
        (CanvasPrintDocument.MakePage s JOB_PAGE_APPLICATION_DEFINED dw dh)).raised =
        s.raised ++ [.preview s.newPreviewPageNumber]) := by
  refine ⟨fun hq hreg => ?_, fun hq hreg hput hv => ?_, fun hq hprev hopts => ?_⟩
  · simp [CanvasPrintDocument.Paginate, CanvasPrintDocument.RunNextAction, hq,
          CanvasPrintDocument.runTask, CanvasPrintDocument.runPaginateTask, hreg]
  · have hv' : ¬ (v < 1) := by omega
    simp [CanvasPrintDocument.Paginate, CanvasPrintDocument.RunNextAction, hq,
          CanvasPrintDocument.runTask, CanvasPrintDocument.runPaginateTask, hreg,
          hput, CanvasPrintTaskOptionsChangedEventArgs.put_NewPreviewPageNumber,
          CanvasPrintTaskOptionsChangedEventArgs.init, hv']
  · simp [CanvasPrintDocument.MakePage, CanvasPrintDocument.RunNextAction, hq,
          CanvasPrintDocument.runTask, CanvasPrintDocument.runMakePageTask,
          hopts, hprev]

/-- Witness for C3 at the fixtures `registeredDoc` (whose handler sets the new
page number to 5) and `paginatedDoc` (one committed pagination round). -/
theorem sentinel_page_resolution_witness :
    (CanvasPrintDocument.RunNextAction
      (CanvasPrintDocument.Paginate registeredDoc JOB_PAGE_APPLICATION_DEFINED
        anyOptions)).raised =
      registeredDoc.raised ++ [.printTaskOptionsChanged 1] ∧
    (CanvasPrintDocument.RunNextAction
      (CanvasPrintDocument.Paginate registeredDoc 3 anyOptions)).newPreviewPageNumber = 5 ∧
    (CanvasPrintDocument.RunNextAction
      (CanvasPrintDocument.MakePage paginatedDoc JOB_PAGE_APPLICATION_DEFINED
        50 100)).raised =
      paginatedDoc.raised ++ [.preview paginatedDoc.newPreviewPageNumber] :=
  ⟨(sentinel_page_resolution registeredDoc anyOptions { putNewPage := some 5 }
      5 3 50 100).1 rfl rfl,
   (sentinel_page_resolution registeredDoc anyOptions { putNewPage := some 5 }
      5 3 50 100).2.1 rfl rfl rfl (by norm_num),
   (sentinel_page_resolution paginatedDoc anyOptions { putNewPage := some 5 }
      5 3 50 100).2.2 rfl rfl rfl⟩

/-- C4: a `MakePage(p, displayWidth, displayHeight)` round creates the render
target bitmap at the page's physical size (width and height from the task
options' page description, not the display size) with DPI equal to
`deviceDpi * (displayWidth / pageWidth)`, and then calls the preview target's
`DrawPage` with that same DPI on both axes and the surface of the bitmap just
created. -/
theorem makePage_size_and_dpi (s : CanvasPrintDocument)
    (opts : PrintTaskOptions) (p : Nat) (dw dh : ℚ)
    (hq : s.queue = []) (hopts : s.lastOptions = some opts)
    (hp : p ≠ JOB_PAGE_APPLICATION_DEFINED) :
    (CanvasPrintDocument.RunNextAction
      (CanvasPrintDocument.MakePage s p dw dh)).renderTargets =
      s.renderTargets ++
        [{ width := (opts.getPageDescription p).width
           height := (opts.getPageDescription p).height
           dpi := s.deviceDpi * (dw / (opts.getPageDescription p).width)
           premultipliedB8G8R8A8 := true }] ∧
    (CanvasPrintDocument.RunNextAction
      (CanvasPrintDocument.MakePage s p dw dh)).previewTargetCalls =
      s.previewTargetCalls ++
        [.drawPage p s.renderTargets.length
          (s.deviceDpi * (dw / (opts.getPageDescription p).width))
          (s.deviceDpi * (dw / (opts.getPageDescription p).width))] := by
  cases hprev : s.previewHandler <;>
    simp [CanvasPrintDocument.MakePage, CanvasPrintDocument.RunNextAction, hq,
          CanvasPrintDocument.runTask, CanvasPrintDocument.runMakePageTask,
          hopts, hp, hprev]

/-- Witness for C4 at the fixture `paginatedDoc`, page 7, display size
50 x 100. -/
theorem makePage_size_and_dpi_witness :
    (CanvasPrintDocument.RunNextAction
      (CanvasPrintDocument.MakePage paginatedDoc 7 50 100)).renderTargets =
      paginatedDoc.renderTargets ++
        [{ width := (anyOptions.getPageDescription 7).width
           height := (anyOptions.getPageDescription 7).height
           dpi := paginatedDoc.deviceDpi * (50 / (anyOptions.getPageDescription 7).width)
           premultipliedB8G8R8A8 := true }] ∧
    (CanvasPrintDocument.RunNextAction
      (CanvasPrintDocument.MakePage paginatedDoc 7 50 100)).previewTargetCalls =
      paginatedDoc.previewTargetCalls ++
        [.drawPage 7 paginatedDoc.renderTargets.length
          (paginatedDoc.deviceDpi * (50 / (anyOptions.getPageDescription 7).width))
          (paginatedDoc.deviceDpi * (50 / (anyOptions.getPageDescription 7).width))] :=
  makePage_size_and_dpi paginatedDoc anyOptions 7 50 100 rfl rfl (by decide)

/-- C9: removing an event registration after its triggering operation has
enqueued work but before the queue is drained suppresses exactly the handler
invocation; every other side effect of the enqueued task still occurs (the
pagination round still commits its new preview page number and task options,
the make-page round still creates the render target and calls `DrawPage`,
and the make-document round still closes the print control). -/
theorem unregistered_handler_not_called (s : CanvasPrintDocument)
    (opts : PrintTaskOptions) (p : Nat) (dw dh : ℚ)
    (hq : s.queue = []) :
    ((CanvasPrintDocument.RunNextAction
        (CanvasPrintDocument.remove_PrintTaskOptionsChanged
          (CanvasPrintDocument.Paginate s p opts))).raised = s.raised ∧
     (CanvasPrintDocument.RunNextAction
        (CanvasPrintDocument.remove_PrintTaskOptionsChanged
          (CanvasPrintDocument.Paginate s p opts))).newPreviewPageNumber = 1 ∧
     (CanvasPrintDocument.RunNextAction
        (CanvasPrintDocument.remove_PrintTaskOptionsChanged
          (CanvasPrintDocument.Paginate s p opts))).lastOptions = some opts) ∧
    (s.lastOptions = some opts → p ≠ JOB_PAGE_APPLICATION_DEFINED →
      (CanvasPrintDocument.RunNextAction
        (CanvasPrintDocument.remove_Preview
          (CanvasPrintDocument.MakePage s p dw dh))).raised = s.raised ∧
      (CanvasPrintDocument.RunNextAction
        (CanvasPrintDocument.remove_Preview
          (CanvasPrintDocument.MakePage s p dw dh))).previewTargetCalls =
        s.previewTargetCalls ++
          [.drawPage p s.renderTargets.length
            (s.deviceDpi * (dw / (opts.getPageDescription p).width))
            (s.deviceDpi * (dw / (opts.getPageDescription p).width))]) ∧
    ((CanvasPrintDocument.RunNextAction
        (CanvasPrintDocument.remove_Print
          (CanvasPrintDocument.MakeDocument s opts))).raised = s.raised ∧
     (CanvasPrintDocument.RunNextAction
        (CanvasPrintDocument.remove_Print
          (CanvasPrintDocument.MakeDocument s opts))).printControlCalls =
        s.printControlCalls ++ [.close]) := by
  refine ⟨⟨?_, ?_, ?_⟩, fun hopts hp => ⟨?_, ?_⟩, ⟨?_, ?_⟩⟩ <;>
    simp [CanvasPrintDocument.Paginate, CanvasPrintDocument.MakePage,
          CanvasPrintDocument.MakeDocument,
          CanvasPrintDocument.remove_PrintTaskOptionsChanged,
          CanvasPrintDocument.remove_Preview, CanvasPrintDocument.remove_Print,
          CanvasPrintDocument.RunNextAction, hq, CanvasPrintDocument.runTask,
          CanvasPrintDocument.runPaginateTask,
          CanvasPrintDocument.runMakePageTask,
          CanvasPrintDocument.runMakeDocumentTask,
          CanvasPrintTaskOptionsChangedEventArgs.init,
          CanvasPrintEventArgs.init, CanvasPrintEventArgs.EndPrinting,
          CanvasPrintEventArgs.drawPages]
  all_goals simp_all

/-- Witness for C9 at the fixture `paginatedDoc`, page 7, display size
50 x 100. -/
theorem unregistered_handler_not_called_witness :
    (CanvasPrintDocument.RunNextAction
      (CanvasPrintDocument.remove_PrintTaskOptionsChanged
        (CanvasPrintDocument.Paginate paginatedDoc 7 anyOptions))).raised =
      paginatedDoc.raised ∧
    (CanvasPrintDocument.RunNextAction
      (CanvasPrintDocument.remove_Preview
        (CanvasPrintDocument.MakePage paginatedDoc 7 50 100))).raised =
      paginatedDoc.raised ∧
    (CanvasPrintDocument.RunNextAction
      (CanvasPrintDocument.remove_Print
        (CanvasPrintDocument.MakeDocument paginatedDoc anyOptions))).printControlCalls =
      paginatedDoc.printControlCalls ++ [.close] :=
  ⟨(unregistered_handler_not_called paginatedDoc anyOptions 7 50 100 rfl).1.1,
   ((unregistered_handler_not_called paginatedDoc anyOptions 7 50 100 rfl).2.1
      rfl (by decide)).1,
   (unregistered_handler_not_called paginatedDoc anyOptions 7 50 100 rfl).2.2.2⟩

/-- Trace of a `Print` handler that creates and closes `n` drawing sessions
starting from a state with no open session: one `AddPage` per page, in
sequential page order starting from the current page index, each with the
page's physical size from the task options' page description and null ticket
stream and tags. -/
theorem drawPages_trace (n : Nat) (a : CanvasPrintEventArgs)
    (h : a.sessionOpen = false) :
    (CanvasPrintEventArgs.drawPages n a).printControlCalls =
      a.printControlCalls ++
        (List.range' a.currentPage n).map (fun q =>
          .addPage q (a.printTaskOptions.getPageDescription q).width
            (a.printTaskOptions.getPageDescription q).height none none none) ∧
    (CanvasPrintEventArgs.drawPages n a).sessionOpen = false := by
  induction n generalizing a with
  | zero => simpa [CanvasPrintEventArgs.drawPages] using h
  | succ n ih =>
      have hb : (CanvasPrintEventArgs.drawOnePage a).sessionOpen = false := by
        simp [CanvasPrintEventArgs.drawOnePage,
              CanvasPrintEventArgs.CreateDrawingSessionImpl,
              CanvasPrintEventArgs.DrawingSessionClosed, h]
      obtain ⟨ih1, ih2⟩ := ih (CanvasPrintEventArgs.drawOnePage a) hb
      constructor
      · show (CanvasPrintEventArgs.drawPages n
          (CanvasPrintEventArgs.drawOnePage a)).printControlCalls = _
        rw [ih1]
        simp [CanvasPrintEventArgs.drawOnePage,
              CanvasPrintEventArgs.CreateDrawingSessionImpl,
              CanvasPrintEventArgs.DrawingSessionClosed, h, List.range'_succ]
      · exact ih2

/-- C1: when the queued print task runs with a registered `Print` handler that
creates and closes `n` drawing sessions, the print control receives exactly
`n` `AddPage` calls with the sequential page indices `1..n` in order, each
carrying that page's physical size from the task options' page description
and null ticket stream and tags, followed by exactly one `Close`, after the
handler returns — including the `n = 0` case. -/
theorem print_addPage_sequence_then_close (s : CanvasPrintDocument)
    (opts : PrintTaskOptions) (n : Nat)
    (hq : s.queue = []) (hreg : s.printHandler = some n) :
    (CanvasPrintDocument.RunNextAction
      (CanvasPrintDocument.MakeDocument s opts)).printControlCalls =
      s.printControlCalls ++
        ((List.range' 1 n).map (fun q =>
          .addPage q (opts.getPageDescription q).width
            (opts.getPageDescription q).height none none none) ++
         [.close]) := by
  obtain ⟨h1, -⟩ := drawPages_trace n
    (CanvasPrintEventArgs.init opts ((opts.getPageDescription 1).dpiX)) rfl
  simp only [CanvasPrintEventArgs.init] at h1
  simp [CanvasPrintDocument.MakeDocument, CanvasPrintDocument.RunNextAction, hq,
        CanvasPrintDocument.runTask, CanvasPrintDocument.runMakeDocumentTask,
        hreg, CanvasPrintEventArgs.EndPrinting, h1, CanvasPrintEventArgs.init]

/-- Witness for C1 at the fixture `printReadyDoc`, whose print handler draws
2 pages over `anyOptions`. -/
theorem print_addPage_sequence_then_close_witness :
    (CanvasPrintDocument.RunNextAction
      (CanvasPrintDocument.MakeDocument printReadyDoc anyOptions)).printControlCalls =
      printReadyDoc.printControlCalls ++
        ((List.range' 1 2).map (fun q =>
          .addPage q (anyOptions.getPageDescription q).width
            (anyOptions.getPageDescription q).height none none none) ++
         [.close]) :=
  print_addPage_sequence_then_close printReadyDoc anyOptions 2 rfl rfl
